import Mathlib

/-!
Verification of the KiDoom frame-transport and bounded-pool rendering
pipeline (files `kicad_doom_plugin/pcb_renderer.py`, `object_pool.py`,
`doom_bridge.py`, `entity_types.py`, `coordinate_transform.py`, `config.py`)
against its natural-language specification.

The Python code is shallowly embedded: mutable pools become lists threaded
through pure functions, PCB objects become small structures recording the
fields the renderer mutates, Python ints become `Nat`/`Int` and JSON numbers
become `ℚ`, and operations that can raise return `Option`.
-/

/- ===================== config.py constants ===================== -/

/-- Distance threshold for layer selection (config.DISTANCE_THRESHOLD). -/
def DISTANCE_THRESHOLD : ℚ := 100

/-- Trace width for close walls in nm (config.TRACE_WIDTH_CLOSE). -/
def TRACE_WIDTH_CLOSE : Int := 300000

/-- Trace width for far walls in nm (config.TRACE_WIDTH_FAR). -/
def TRACE_WIDTH_FAR : Int := 150000

/-- HUD update throttle interval in frames (config.HUD_UPDATE_INTERVAL). -/
def HUD_UPDATE_INTERVAL : Nat := 5

/-- Message type 0x01, DOOM to Python frame data (config.MSG_FRAME_DATA). -/
def MSG_FRAME_DATA : Nat := 1

/-- Message type 0x02, keyboard event (config.MSG_KEY_EVENT). -/
def MSG_KEY_EVENT : Nat := 2

/-- Message type 0x03, init complete (config.MSG_INIT_COMPLETE). -/
def MSG_INIT_COMPLETE : Nat := 3

/-- Message type 0x04, shutdown request (config.MSG_SHUTDOWN). -/
def MSG_SHUTDOWN : Nat := 4

/- ===================== coordinate_transform.py ===================== -/

/-- Truncation of a rational toward zero, the behaviour of Python int(). -/
def ratTrunc (q : ℚ) : Int := q.num.tdiv (q.den : Int)

/-- CoordinateTransform.doom_to_kicad: center on the DOOM screen midpoint
(160, 100), scale by 500000 nm per pixel, truncate to int, then offset to
the A4 page center (148500000, 105000000) nm. -/
def doom_to_kicad (x y : ℚ) : Int × Int :=
  let x_centered := x - 160
  let y_centered := y - 100
  (ratTrunc (x_centered * 500000) + 148500000,
   ratTrunc (y_centered * 500000) + 105000000)

/- ===================== pcb_renderer.py: frame queue ===================== -/

/-- DoomPCBRenderer.render_frame acting on the bounded frame queue
(queue.Queue(maxsize=2), front of the list is the oldest entry):
put_nowait succeeds if the queue is below capacity; on queue.Full the code
does get_nowait() (drop the oldest) followed by put_nowait(frame_data). -/
def render_frame {α : Type} (q : List α) (f : α) : List α :=
  if q.length < 2 then q ++ [f] else q.drop 1 ++ [f]

/-- Operations on the frame queue: the receive thread pushes a frame via
render_frame, the wx.Timer tick (_on_refresh_timer) pops at most one frame
with get_nowait. -/
inductive QOp (α : Type) : Type
  | push : α → QOp α
  | tick : QOp α

/-- Interleaved execution of queue operations. State is (queue, observed):
the current queue contents and the sequence of frames the dispatcher has
dequeued so far, in dequeue order. -/
def runOps {α : Type} (st : List α × List α) : List (QOp α) → List α × List α
  | [] => st
  | QOp.push f :: ops => runOps (render_frame st.1 f, st.2) ops
  | QOp.tick :: ops =>
    match st.1 with
    | [] => runOps ([], st.2) ops
    | f :: rest => runOps (rest, st.2 ++ [f]) ops

/-- Frames pushed by a sequence of operations, in order of arrival. -/
def pushes {α : Type} : List (QOp α) → List α
  | [] => []
  | QOp.push f :: ops => f :: pushes ops
  | QOp.tick :: ops => pushes ops

theorem runOps_append {α : Type} (st : List α × List α) (as bs : List (QOp α)) :
    runOps st (as ++ bs) = runOps (runOps st as) bs := by
  induction as generalizing st with
  | nil => rfl
  | cons op ops ih =>
    cases op with
    | push f => simpa [runOps] using ih _
    | tick =>
      cases h : st.1 with
      | nil => simp [runOps, h]; exact ih _
      | cons x rest => simp [runOps, h]; exact ih _

theorem render_frame_sublist {α : Type} (q : List α) (f : α) :
    List.Sublist (render_frame q f) (q ++ [f]) := by
  unfold render_frame
  split
  · exact List.Sublist.refl _
  · exact List.Sublist.append (List.drop_sublist 1 q) (List.Sublist.refl [f])

theorem runOps_observed_sublist {α : Type} (ops : List (QOp α)) :
    ∀ (q obs P : List α), List.Sublist (obs ++ q) P →
      List.Sublist ((runOps (q, obs) ops).2 ++ (runOps (q, obs) ops).1)
        (P ++ pushes ops) := by
  induction ops with
  | nil => intro q obs P h; simpa [runOps, pushes] using h
  | cons op ops ih =>
    intro q obs P h
    cases op with
    | push f =>
      have h1 : List.Sublist (obs ++ render_frame q f) (obs ++ (q ++ [f])) :=
        (render_frame_sublist q f).append_left obs
      have h2 : List.Sublist ((obs ++ q) ++ [f]) (P ++ [f]) :=
        h.append (List.Sublist.refl [f])
      have step : List.Sublist (obs ++ render_frame q f) (P ++ [f]) := by
        refine h1.trans ?_
        rw [← List.append_assoc]
        exact h2
      have := ih (render_frame q f) obs (P ++ [f]) step
      simpa [runOps, pushes, List.append_assoc] using this
    | tick =>
      cases q with
      | nil =>
        have := ih [] obs P (by simpa using h)
        simpa [runOps, pushes] using this
      | cons x rest =>
        have step : List.Sublist ((obs ++ [x]) ++ rest) P := by
          simpa [List.append_assoc] using h
        have := ih rest (obs ++ [x]) P step
        simpa [runOps, pushes] using this

/- ===================== object_pool.py: pools ===================== -/

/-- Copper layer of a trace (pcbnew.F_Cu / pcbnew.B_Cu). -/
inductive Layer : Type
  | FCu
  | BCu
deriving DecidableEq, Repr

/-- PCB_TRACK slot: the fields the renderer mutates (SetStart, SetEnd,
SetLayer, SetWidth). Width 0 renders the trace invisible. -/
structure Trace where
  sx : Int
  sy : Int
  ex : Int
  ey : Int
  layer : Layer
  width : Int
deriving DecidableEq, Repr

/-- PCB_VIA slot: the renderer only mutates its position (SetPosition). -/
structure Via where
  x : Int
  y : Int
deriving DecidableEq, Repr

/-- PCB_TEXT slot: the renderer mutates text and position. -/
structure TextSlot where
  content : String
  x : Int
  y : Int
deriving DecidableEq, Repr

/-- Off-screen position used by the pools to hide vias, footprints and
text, pcbnew.VECTOR2I(-1000000000, -1000000000). -/
def OFF_SCREEN : Int × Int := (-1000000000, -1000000000)

/-- TracePool.get: raises IndexError (modelled as none) iff
index >= max_size, otherwise returns the pre-allocated slot at index. -/
def tracePool_get (traces : List Trace) (max_size : Nat) (index : Nat) :
    Option Trace :=
  if max_size ≤ index then none else traces[index]?

/-- TracePool.hide_unused: set the width of every slot from used_count to
max_size - 1 to zero. Structural form of the range loop: the first
used_count slots are kept, every later slot has its width zeroed. -/
def tracePool_hide_unused : List Trace → Nat → List Trace
  | [], _ => []
  | t :: ts, 0 => { t with width := 0 } :: tracePool_hide_unused ts 0
  | t :: ts, n + 1 => t :: tracePool_hide_unused ts n

/-- ViaPool.get: wraps around modulo max_size instead of raising when
index >= max_size; below max_size it indexes directly. -/
def viaPool_get (vias : List Via) (max_size : Nat) (index : Nat) :
    Option Via :=
  if max_size ≤ index then vias[index % max_size]? else vias[index]?

/-- ViaPool.hide_unused: move every slot from used_count onward off-screen. -/
def viaPool_hide_unused : List Via → Nat → List Via
  | [], _ => []
  | _ :: vs, 0 => { x := OFF_SCREEN.1, y := OFF_SCREEN.2 } :: viaPool_hide_unused vs 0
  | v :: vs, n + 1 => v :: viaPool_hide_unused vs n

/-- TextPool.get: wraps around modulo max_size when index >= max_size. -/
def textPool_get (texts : List TextSlot) (max_size : Nat) (index : Nat) :
    Option TextSlot :=
  if max_size ≤ index then texts[index % max_size]? else texts[index]?

/-- TextPool.hide_unused: clear the text and move every slot from
used_count onward off-screen. -/
def textPool_hide_unused : List TextSlot → Nat → List TextSlot
  | [], _ => []
  | _ :: ts, 0 =>
    { content := "", x := OFF_SCREEN.1, y := OFF_SCREEN.2 } :: textPool_hide_unused ts 0
  | t :: ts, n + 1 => t :: textPool_hide_unused ts n

theorem tracePool_hide_unused_length (p : List Trace) (u : Nat) :
    (tracePool_hide_unused p u).length = p.length := by
  induction p generalizing u with
  | nil => rfl
  | cons t ts ih => cases u <;> simp [tracePool_hide_unused, ih]

theorem viaPool_hide_unused_length (p : List Via) (u : Nat) :
    (viaPool_hide_unused p u).length = p.length := by
  induction p generalizing u with
  | nil => rfl
  | cons v vs ih => cases u <;> simp [viaPool_hide_unused, ih]

theorem tracePool_hide_unused_width (p : List Trace) (u : Nat) (i : Nat)
    (h : i < (tracePool_hide_unused p u).length) (hu : u ≤ i) :
    ((tracePool_hide_unused p u).get ⟨i, h⟩).width = 0 := by
  induction p generalizing u i with
  | nil => simp [tracePool_hide_unused] at h
  | cons t ts ih =>
    cases u with
    | zero =>
      cases i with
      | zero => rfl
      | succ j => exact ih 0 j (by simpa [tracePool_hide_unused] using h) (Nat.zero_le j)
    | succ v =>
      cases i with
      | zero => omega
      | succ j =>
        exact ih v j (by simpa [tracePool_hide_unused] using h) (Nat.le_of_succ_le_succ hu)

theorem viaPool_hide_unused_pos (p : List Via) (u : Nat) (i : Nat)
    (h : i < (viaPool_hide_unused p u).length) (hu : u ≤ i) :
    ((viaPool_hide_unused p u).get ⟨i, h⟩).x = OFF_SCREEN.1 ∧
      ((viaPool_hide_unused p u).get ⟨i, h⟩).y = OFF_SCREEN.2 := by
  induction p generalizing u i with
  | nil => simp [viaPool_hide_unused] at h
  | cons v vs ih =>
    cases u with
    | zero =>
      cases i with
      | zero => exact ⟨rfl, rfl⟩
      | succ j => exact ih 0 j (by simpa [viaPool_hide_unused] using h) (Nat.zero_le j)
    | succ w =>
      cases i with
      | zero => omega
      | succ j =>
        exact ih w j (by simpa [viaPool_hide_unused] using h) (Nat.le_of_succ_le_succ hu)

/- ===================== pcb_renderer.py: frame mapping ===================== -/

/-- A wireframe edge in DOOM screen coordinates (start x, start y,
end x, end y). -/
structure Edge where
  sx : ℚ
  sy : ℚ
  ex : ℚ
  ey : ℚ
deriving DecidableEq, Repr

/-- Geometry update performed on a pooled trace: SetStart / SetEnd with
doom_to_kicad-converted endpoints, then SetLayer and SetWidth. -/
def mkTrace (e : Edge) (layer : Layer) (width : Int) : Trace :=
  let s := doom_to_kicad e.sx e.sy
  let en := doom_to_kicad e.ex e.ey
  { sx := s.1, sy := s.2, ex := en.1, ey := en.2, layer := layer, width := width }

/-- State threaded through the wall / entity rendering loops: the trace
pool contents, the next trace index, the number of traces written by the
current pass, the number of pool-capacity or legacy-format warnings
printed, and whether an exception escaped (it never does: the capacity
check precedes every get). -/
structure RenderSt where
  pool : List Trace
  idx : Nat
  used : Nat
  warnings : Nat
  raised : Bool
deriving Repr

/-- Inner edge loop shared by _render_walls and _render_entities: for each
edge, if the pool capacity check trace_index >= len(pool) fails the loop
breaks (printing a warning in debug mode); otherwise the trace at
trace_index is fetched from the pool and its geometry, layer and width are
updated in place. -/
def renderEdges (debug : Bool) (layer : Layer) (width : Int) :
    List Edge → RenderSt → RenderSt
  | [], st => st
  | e :: es, st =>
    if st.idx < st.pool.length then
      match tracePool_get st.pool st.pool.length st.idx with
      | some _ =>
        renderEdges debug layer width es
          { pool := st.pool.set st.idx (mkTrace e layer width),
            idx := st.idx + 1, used := st.used + 1,
            warnings := st.warnings, raised := st.raised }
      | none => { st with raised := true }
    else
      { st with warnings := if debug then st.warnings + 1 else st.warnings }

/-- Edges of the wireframe box of one wall, in the order emitted by
_render_walls: top, bottom, left, right. -/
def wallEdges (x1 y1_top y1_bottom x2 y2_top y2_bottom : ℚ) : List Edge :=
  [{ sx := x1, sy := y1_top, ex := x2, ey := y2_top },
   { sx := x1, sy := y1_bottom, ex := x2, ey := y2_bottom },
   { sx := x1, sy := y1_top, ex := x1, ey := y1_bottom },
   { sx := x2, sy := y2_top, ex := x2, ey := y2_bottom }]

/-- Body of one iteration of the _render_walls loop. A wall is the JSON
array [x1, y1_top, y1_bottom, x2, y2_top, y2_bottom, distance, silhouette,
...]; entries shorter than 8 fields are skipped (continue), silhouette ==
0 (portal) walls are skipped (continue), and each remaining wall
contributes its 4 edges with layer and width selected by
distance < DISTANCE_THRESHOLD. -/
def wallStep (debug : Bool) (w : List ℚ) (st : RenderSt) : RenderSt :=
  match w with
  | x1 :: y1_top :: y1_bottom :: x2 :: y2_top :: y2_bottom :: distance :: silhouette :: _ =>
    if silhouette = 0 then st
    else
      let layer := if distance < DISTANCE_THRESHOLD then Layer.FCu else Layer.BCu
      let width := if distance < DISTANCE_THRESHOLD then TRACE_WIDTH_CLOSE else TRACE_WIDTH_FAR
      renderEdges debug layer width
        (wallEdges x1 y1_top y1_bottom x2 y2_top y2_bottom) st
  | _ => st

/-- Loop of _render_walls over the wall list. -/
def render_walls_go (debug : Bool) : List (List ℚ) → RenderSt → RenderSt
  | [], st => st
  | w :: ws, st => render_walls_go debug ws (wallStep debug w st)

/-- DoomPCBRenderer._render_walls: starts at trace index 0 and returns the
loop state; its Python return value is the final trace_index. -/
def render_walls (debug : Bool) (walls : List (List ℚ)) (pool : List Trace) :
    RenderSt :=
  render_walls_go debug walls
    { pool := pool, idx := 0, used := 0, warnings := 0, raised := false }

/-- Entity payload accepted by _render_entities: either the wireframe dict
format {x, y_top, y_bottom, height, type, distance} (absent keys take the
dict.get defaults) or the unsupported legacy tuple format. -/
inductive Entity : Type
  | wire (x y_top y_bottom height distance : ℚ)
  | legacy
deriving DecidableEq, Repr

/-- Edges of the wireframe box of one wireframe-format entity: a rectangle
of width height centered on x spanning y_top..y_bottom, emitted in the
order top, bottom, left, right. -/
def entityEdges (x y_top y_bottom height : ℚ) : List Edge :=
  let half_width := height / 2
  let x_left := x - half_width
  let x_right := x + half_width
  [{ sx := x_left, sy := y_top, ex := x_right, ey := y_top },
   { sx := x_left, sy := y_bottom, ex := x_right, ey := y_bottom },
   { sx := x_left, sy := y_top, ex := x_left, ey := y_bottom },
   { sx := x_right, sy := y_top, ex := x_right, ey := y_bottom }]

/-- Body of one iteration of the _render_entities loop: wireframe entities
contribute 4 edges always styled F_Cu / TRACE_WIDTH_CLOSE (the entity
distance field is read but unused for styling); legacy-format entities are
skipped with a debug-mode warning. -/
def entityStep (debug : Bool) (ent : Entity) (st : RenderSt) : RenderSt :=
  match ent with
  | Entity.wire x y_top y_bottom height _ =>
    renderEdges debug Layer.FCu TRACE_WIDTH_CLOSE
      (entityEdges x y_top y_bottom height) st
  | Entity.legacy =>
    { st with warnings := if debug then st.warnings + 1 else st.warnings }

/-- Loop of _render_entities over the entity list. -/
def render_entities_go (debug : Bool) : List Entity → RenderSt → RenderSt
  | [], st => st
  | ent :: es, st => render_entities_go debug es (entityStep debug ent st)

/-- DoomPCBRenderer._render_entities: continues at start_index in the same
trace pool as the walls; its Python return value is traces_used, the
number of traces written for entities (the used field, counted from 0). -/
def render_entities (debug : Bool) (entities : List Entity)
    (pool : List Trace) (start_index : Nat) : RenderSt :=
  render_entities_go debug entities
    { pool := pool, idx := start_index, used := 0, warnings := 0, raised := false }

/-- Loop body of _render_projectiles: projectiles shorter than 2 fields
are skipped; each valid (x, y) moves the pooled via at via_index (fetched
through the wrapping ViaPool.get) and increments via_index. -/
def render_projectiles_go : List (List ℚ) → List Via → Nat → List Via × Nat
  | [], vias, i => (vias, i)
  | p :: ps, vias, i =>
    match p with
    | x :: y :: _ =>
      let pos := doom_to_kicad x y
      let j := if vias.length ≤ i then i % vias.length else i
      render_projectiles_go ps (vias.set j { x := pos.1, y := pos.2 }) (i + 1)
    | _ => render_projectiles_go ps vias i

/-- DoomPCBRenderer._render_projectiles: render each projectile as a via,
then hide_unused(via_index) on the via pool. -/
def render_projectiles (projectiles : List (List ℚ)) (vias : List Via) :
    List Via :=
  let r := render_projectiles_go projectiles vias 0
  viaPool_hide_unused r.1 r.2

/-- HudState: the dict fields _render_hud reads, each optional because the
code uses dict.get with defaults. -/
structure Hud where
  health : Option Int
  ammo : Option Int
  armor : Option Int
  keys : Option (List String)
deriving DecidableEq, Repr

/-- Positioned HUD lines built by _render_hud: health, ammo and armor
always, the key list only when non-empty. -/
def hud_elements (hud : Hud) : List (ℚ × ℚ × String) :=
  let health := hud.health.getD 100
  let ammo := hud.ammo.getD 0
  let armor := hud.armor.getD 0
  let keys := hud.keys.getD []
  let base := [((10 : ℚ), (190 : ℚ), "HEALTH: " ++ toString health ++ "%"),
               ((80 : ℚ), (190 : ℚ), "AMMO: " ++ toString ammo),
               ((150 : ℚ), (190 : ℚ), "ARMOR: " ++ toString armor)]
  if keys.isEmpty then base
  else
    base ++ [((220 : ℚ), (190 : ℚ),
      "KEYS: " ++ " ".intercalate (keys.map String.toUpper))]

/-- Write loop of _render_hud: each element updates the pooled text slot
at text_index (fetched through the wrapping TextPool.get). Layer is the
constant F_SilkS and is not modelled. -/
def render_hud_go : List (ℚ × ℚ × String) → List TextSlot → Nat →
    List TextSlot × Nat
  | [], texts, i => (texts, i)
  | (dx, dy, s) :: es, texts, i =>
    let pos := doom_to_kicad dx dy
    let j := if texts.length ≤ i then i % texts.length else i
    render_hud_go es (texts.set j { content := s, x := pos.1, y := pos.2 }) (i + 1)

/-- DoomPCBRenderer._render_hud: write the HUD lines, then
hide_unused(text_index) on the text pool. -/
def render_hud (hud : Hud) (texts : List TextSlot) : List TextSlot :=
  let r := render_hud_go (hud_elements hud) texts 0
  textPool_hide_unused r.1 r.2

/-- Frame payload consumed by _process_frame (frame_data.get defaults make
each field effectively total; a missing key behaves as the empty list /
empty dict, which the Option models). -/
structure Frame where
  walls : List (List ℚ)
  entities : List Entity
  projectiles : List (List ℚ)
  hud : Hud
deriving Repr

/-- Renderer state carried across _process_frame calls: the three pools
the claims are about plus the frame counter and HUD throttle bookkeeping. -/
structure RendererState where
  traces : List Trace
  vias : List Via
  texts : List TextSlot
  frame_count : Nat
  last_hud_update : Nat
deriving Repr

/-- HUD throttle condition of _process_frame, line 175:
frame_count - last_hud_update >= HUD_UPDATE_INTERVAL (the interval is the
hud_interval parameter; both counters are Python ints with
last_hud_update <= frame_count in every reachable state, so Nat
subtraction coincides). -/
def hud_due (hud_interval frame_count last_hud_update : Nat) : Bool :=
  hud_interval ≤ frame_count - last_hud_update

/-- DoomPCBRenderer._process_frame: render walls from index 0, entities
from index wall_trace_count in the same pool, hide unused traces at
wall_trace_count + entity_trace_count, render projectiles (which hides
unused vias), then render the HUD only when the throttle is due, and
finally increment frame_count. -/
def process_frame (debug : Bool) (hud_interval : Nat)
    (st : RendererState) (f : Frame) : RendererState :=
  let w := render_walls debug f.walls st.traces
  let e := render_entities debug f.entities w.pool w.idx
  let total_traces := w.idx + e.used
  let traces2 := tracePool_hide_unused e.pool total_traces
  let vias2 := render_projectiles f.projectiles st.vias
  let due := hud_due hud_interval st.frame_count st.last_hud_update
  let texts2 := if due then render_hud f.hud st.texts else st.texts
  { traces := traces2, vias := vias2, texts := texts2,
    frame_count := st.frame_count + 1,
    last_hud_update := if due then st.frame_count else st.last_hud_update }

/- ============== loop lemmas for the trace-writing passes ============== -/

theorem renderEdges_spec (debug : Bool) (layer : Layer) (width : Int)
    (es : List Edge) :
    ∀ st : RenderSt, st.idx ≤ st.pool.length →
      (renderEdges debug layer width es st).pool.length = st.pool.length ∧
      (renderEdges debug layer width es st).idx
          = min (st.idx + es.length) st.pool.length ∧
      (renderEdges debug layer width es st).used
          = st.used + ((renderEdges debug layer width es st).idx - st.idx) ∧
      (renderEdges debug layer width es st).raised = st.raised ∧
      st.warnings ≤ (renderEdges debug layer width es st).warnings ∧
      (debug = true → st.pool.length < st.idx + es.length →
        st.warnings < (renderEdges debug layer width es st).warnings) := by
  induction es with
  | nil =>
    intro st h
    refine ⟨rfl, by simp [renderEdges]; omega, by simp [renderEdges], rfl,
      le_refl _, fun _ hlt => absurd hlt (by simp; omega)⟩
  | cons e es ih =>
    intro st h
    by_cases hlt : st.idx < st.pool.length
    · have hget : tracePool_get st.pool st.pool.length st.idx
          = some (st.pool.get ⟨st.idx, hlt⟩) := by
        simp [tracePool_get, Nat.not_le.mpr hlt, List.getElem?_eq_getElem hlt]
      have hred : renderEdges debug layer width (e :: es) st
          = renderEdges debug layer width es
              { pool := st.pool.set st.idx (mkTrace e layer width),
                idx := st.idx + 1, used := st.used + 1,
                warnings := st.warnings, raised := st.raised } := by
        simp only [renderEdges, if_pos hlt, hget]
      set st1 : RenderSt :=
        { pool := st.pool.set st.idx (mkTrace e layer width),
          idx := st.idx + 1, used := st.used + 1,
          warnings := st.warnings, raised := st.raised } with hst1
      have hlen1 : st1.pool.length = st.pool.length := by
        simp [hst1, List.length_set]
      have h1 : st1.idx ≤ st1.pool.length := by
        simp [hst1, List.length_set]; omega
      obtain ⟨ihlen, ihidx, ihused, ihraised, ihmono, ihstrict⟩ := ih st1 h1
      rw [hred]
      refine ⟨by rw [ihlen, hlen1], ?_, ?_, by rw [ihraised], ihmono, ?_⟩
      · rw [ihidx]
        simp only [hst1, hlen1]
        simp [List.length_set, List.length_cons]
        omega
      · have hidx_ge : st.idx + 1 ≤ (renderEdges debug layer width es st1).idx := by
          rw [ihidx]
          simp only [hst1]
          simp [List.length_set]
          omega
        rw [ihused, ihidx]
        simp only [hst1]
        simp [List.length_set]
        rw [ihidx] at hidx_ge
        simp only [hst1] at hidx_ge
        simp [List.length_set] at hidx_ge
        omega
      · intro hdbg hover
        refine lt_of_le_of_lt (le_refl st.warnings) (ihstrict hdbg ?_)
        simp only [hst1]
        simp [List.length_set]
        simp [List.length_cons] at hover
        omega
    · have hred : renderEdges debug layer width (e :: es) st
          = { st with warnings := if debug then st.warnings + 1 else st.warnings } := by
        simp only [renderEdges, if_neg hlt]
      have heq : st.idx = st.pool.length := by omega
      rw [hred]
      refine ⟨rfl, by simp [List.length_cons]; omega, by simp, rfl, ?_, ?_⟩
      · cases debug <;> simp
      · intro hdbg _
        subst hdbg
        simp


/-- A wall entry with at least 8 fields and non-zero silhouette: exactly
the walls the loop renders (wireframe, non-portal). -/
def isSolidWireWall (w : List ℚ) : Bool :=
  match w with
  | _ :: _ :: _ :: _ :: _ :: _ :: _ :: s :: _ => if s = 0 then false else true
  | _ => false

/-- Trace slots one wall demands: 4 if rendered, 0 if skipped. -/
def wallDemandOne (w : List ℚ) : Nat := if isSolidWireWall w then 4 else 0

/-- Trace slots a wall list demands. -/
def wallDemand : List (List ℚ) → Nat
  | [] => 0
  | w :: ws => wallDemandOne w + wallDemand ws

theorem wallStep_spec (debug : Bool) (w : List ℚ) (st : RenderSt)
    (h : st.idx ≤ st.pool.length) :
    (wallStep debug w st).pool.length = st.pool.length ∧
    (wallStep debug w st).idx = min (st.idx + wallDemandOne w) st.pool.length ∧
    (wallStep debug w st).used
        = st.used + ((wallStep debug w st).idx - st.idx) ∧
    (wallStep debug w st).raised = st.raised ∧
    st.warnings ≤ (wallStep debug w st).warnings ∧
    (debug = true → st.pool.length < st.idx + wallDemandOne w →
      st.warnings < (wallStep debug w st).warnings) := by
  rcases w with _ | ⟨x1, _ | ⟨y1t, _ | ⟨y1b, _ | ⟨x2, _ | ⟨y2t, _ | ⟨y2b, _ | ⟨dist, _ | ⟨sil, rest⟩⟩⟩⟩⟩⟩⟩⟩ <;>
    try exact ⟨rfl, by simp [wallStep, wallDemandOne, isSolidWireWall]; omega,
      by simp [wallStep], rfl, le_refl _,
      fun _ hlt => absurd hlt (by simp [wallDemandOne, isSolidWireWall]; omega)⟩
  by_cases hs : sil = 0
  · exact ⟨by simp [wallStep, hs],
      by simp [wallStep, wallDemandOne, isSolidWireWall, hs]; omega,
      by simp [wallStep, hs], by simp [wallStep, hs],
      by simp [wallStep, hs],
      fun _ hlt => absurd hlt (by simp [wallDemandOne, isSolidWireWall, hs]; omega)⟩
  · have hd : wallDemandOne (x1 :: y1t :: y1b :: x2 :: y2t :: y2b :: dist :: sil :: rest) = 4 := by
      simp [wallDemandOne, isSolidWireWall, hs]
    have hred : wallStep debug (x1 :: y1t :: y1b :: x2 :: y2t :: y2b :: dist :: sil :: rest) st
        = renderEdges debug
            (if dist < DISTANCE_THRESHOLD then Layer.FCu else Layer.BCu)
            (if dist < DISTANCE_THRESHOLD then TRACE_WIDTH_CLOSE else TRACE_WIDTH_FAR)
            (wallEdges x1 y1t y1b x2 y2t y2b) st := by
      simp [wallStep, hs]
    rw [hred, hd]
    have hlen4 : (wallEdges x1 y1t y1b x2 y2t y2b).length = 4 := by
      simp [wallEdges]
    obtain ⟨e1, e2, e3, e4, e5, e6⟩ := renderEdges_spec debug
      (if dist < DISTANCE_THRESHOLD then Layer.FCu else Layer.BCu)
      (if dist < DISTANCE_THRESHOLD then TRACE_WIDTH_CLOSE else TRACE_WIDTH_FAR)
      (wallEdges x1 y1t y1b x2 y2t y2b) st h
    rw [hlen4] at e2 e6
    exact ⟨e1, e2, e3, e4, e5, e6⟩

theorem render_walls_go_spec (debug : Bool) (walls : List (List ℚ)) :
    ∀ st : RenderSt, st.idx ≤ st.pool.length →
      (render_walls_go debug walls st).pool.length = st.pool.length ∧
      (render_walls_go debug walls st).idx
          = min (st.idx + wallDemand walls) st.pool.length ∧
      (render_walls_go debug walls st).used
          = st.used + ((render_walls_go debug walls st).idx - st.idx) ∧
      (render_walls_go debug walls st).raised = st.raised ∧
      st.warnings ≤ (render_walls_go debug walls st).warnings ∧
      (debug = true → st.pool.length < st.idx + wallDemand walls →
        st.warnings < (render_walls_go debug walls st).warnings) := by
  induction walls with
  | nil =>
    intro st h
    refine ⟨rfl, by simp [render_walls_go, wallDemand]; omega,
      by simp [render_walls_go], rfl, le_refl _,
      fun _ hlt => absurd hlt (by simp [wallDemand]; omega)⟩
  | cons w ws ih =>
    intro st h
    obtain ⟨s1, s2, s3, s4, s5, s6⟩ := wallStep_spec debug w st h
    have h1 : (wallStep debug w st).idx ≤ (wallStep debug w st).pool.length := by
      rw [s1, s2]; omega
    obtain ⟨i1, i2, i3, i4, i5, i6⟩ := ih (wallStep debug w st) h1
    have hred : render_walls_go debug (w :: ws) st
        = render_walls_go debug ws (wallStep debug w st) := rfl
    rw [hred]
    have hdem : wallDemand (w :: ws) = wallDemandOne w + wallDemand ws := rfl
    rw [s1] at i2
    refine ⟨by rw [i1, s1], by rw [i2, s2, hdem]; omega, ?_, by rw [i4, s4], le_trans s5 i5, ?_⟩
    · rw [i3, s3, i2, s2]
      omega
    · intro hdbg hover
      rw [hdem] at hover
      by_cases hov1 : st.pool.length < st.idx + wallDemandOne w
      · exact lt_of_lt_of_le (s6 hdbg hov1) i5
      · have := i6 hdbg (by rw [s2]; omega)
        omega

/-- Trace slots one entity demands: 4 for the wireframe dict format, 0 for
the skipped legacy format. -/
def entityDemandOne : Entity → Nat
  | Entity.wire _ _ _ _ _ => 4
  | Entity.legacy => 0

/-- Trace slots an entity list demands. -/
def entityDemand : List Entity → Nat
  | [] => 0
  | ent :: es => entityDemandOne ent + entityDemand es

theorem entityStep_spec (debug : Bool) (ent : Entity) (st : RenderSt)
    (h : st.idx ≤ st.pool.length) :
    (entityStep debug ent st).pool.length = st.pool.length ∧
    (entityStep debug ent st).idx
        = min (st.idx + entityDemandOne ent) st.pool.length ∧
    (entityStep debug ent st).used
        = st.used + ((entityStep debug ent st).idx - st.idx) ∧
    (entityStep debug ent st).raised = st.raised ∧
    st.warnings ≤ (entityStep debug ent st).warnings ∧
    (debug = true → st.pool.length < st.idx + entityDemandOne ent →
      st.warnings < (entityStep debug ent st).warnings) := by
  cases ent with
  | wire x y_top y_bottom height dist =>
    have hlen4 : (entityEdges x y_top y_bottom height).length = 4 := by
      simp [entityEdges]
    obtain ⟨e1, e2, e3, e4, e5, e6⟩ := renderEdges_spec debug Layer.FCu
      TRACE_WIDTH_CLOSE (entityEdges x y_top y_bottom height) st h
    rw [hlen4] at e2 e6
    exact ⟨e1, e2, e3, e4, e5, e6⟩
  | legacy =>
    refine ⟨rfl, by simp [entityStep, entityDemandOne]; omega,
      by simp [entityStep], rfl, ?_, ?_⟩
    · cases debug <;> simp [entityStep]
    · intro _ hlt
      exact absurd hlt (by simp [entityDemandOne]; omega)

theorem render_entities_go_spec (debug : Bool) (entities : List Entity) :
    ∀ st : RenderSt, st.idx ≤ st.pool.length →
      (render_entities_go debug entities st).pool.length = st.pool.length ∧
      (render_entities_go debug entities st).idx
          = min (st.idx + entityDemand entities) st.pool.length ∧
      (render_entities_go debug entities st).used
          = st.used + ((render_entities_go debug entities st).idx - st.idx) ∧
      (render_entities_go debug entities st).raised = st.raised ∧
      st.warnings ≤ (render_entities_go debug entities st).warnings ∧
      (debug = true → st.pool.length < st.idx + entityDemand entities →
        st.warnings < (render_entities_go debug entities st).warnings) := by
  induction entities with
  | nil =>
    intro st h
    refine ⟨rfl, by simp [render_entities_go, entityDemand]; omega,
      by simp [render_entities_go], rfl, le_refl _,
      fun _ hlt => absurd hlt (by simp [entityDemand]; omega)⟩
  | cons ent es ih =>
    intro st h
    obtain ⟨s1, s2, s3, s4, s5, s6⟩ := entityStep_spec debug ent st h
    have h1 : (entityStep debug ent st).idx ≤ (entityStep debug ent st).pool.length := by
      rw [s1, s2]; omega
    obtain ⟨i1, i2, i3, i4, i5, i6⟩ := ih (entityStep debug ent st) h1
    have hred : render_entities_go debug (ent :: es) st
        = render_entities_go debug es (entityStep debug ent st) := rfl
    rw [hred]
    have hdem : entityDemand (ent :: es) = entityDemandOne ent + entityDemand es := rfl
    rw [s1] at i2
    refine ⟨by rw [i1, s1], by rw [i2, s2, hdem]; omega, ?_, by rw [i4, s4],
      le_trans s5 i5, ?_⟩
    · rw [i3, s3, i2, s2]
      omega
    · intro hdbg hover
      rw [hdem] at hover
      by_cases hov1 : st.pool.length < st.idx + entityDemandOne ent
      · exact lt_of_lt_of_le (s6 hdbg hov1) i5
      · have := i6 hdbg (by rw [s2]; omega)
        omega

/-- Number of projectiles the _render_projectiles loop actually renders:
entries with at least 2 fields. -/
def projUsed : List (List ℚ) → Nat
  | [] => 0
  | p :: ps =>
    (match p with
     | _ :: _ :: _ => 1
     | _ => 0) + projUsed ps

theorem render_projectiles_go_count (ps : List (List ℚ)) :
    ∀ (vias : List Via) (i : Nat),
      (render_projectiles_go ps vias i).2 = i + projUsed ps ∧
      (render_projectiles_go ps vias i).1.length = vias.length := by
  induction ps with
  | nil => intro vias i; simp [render_projectiles_go, projUsed]
  | cons p ps ih =>
    intro vias i
    rcases p with _ | ⟨x, _ | ⟨y, rest⟩⟩
    · simpa [render_projectiles_go, projUsed] using ih vias i
    · simpa [render_projectiles_go, projUsed] using ih vias i
    · have := ih (vias.set (if vias.length ≤ i then i % vias.length else i)
        { x := (doom_to_kicad x y).1, y := (doom_to_kicad x y).2 }) (i + 1)
      refine ⟨?_, ?_⟩
      · rw [show (render_projectiles_go ((x :: y :: rest) :: ps) vias i)
            = render_projectiles_go ps (vias.set (if vias.length ≤ i then i % vias.length else i)
                { x := (doom_to_kicad x y).1, y := (doom_to_kicad x y).2 }) (i + 1) from rfl]
        rw [this.1]
        simp [projUsed]
        omega
      · rw [show (render_projectiles_go ((x :: y :: rest) :: ps) vias i)
            = render_projectiles_go ps (vias.set (if vias.length ≤ i then i % vias.length else i)
                { x := (doom_to_kicad x y).1, y := (doom_to_kicad x y).2 }) (i + 1) from rfl]
        rw [this.2]
        simp [List.length_set]

/- ===================== claim theorems C1 - C4 ===================== -/

theorem wallDemand_all_solid (walls : List (List ℚ))
    (h : ∀ v ∈ walls, isSolidWireWall v = true) :
    wallDemand walls = 4 * walls.length := by
  induction walls with
  | nil => rfl
  | cons w ws ih =>
    have hw := h w (by simp)
    have hws := ih (fun v hv => h v (by simp [hv]))
    simp [wallDemand, wallDemandOne, hw, hws]
    omega

/-- C1: render_frame on a full depth-2 queue discards the oldest queued
frame and inserts the new one (it is non-blocking by construction: both
queue operations used are the _nowait variants, and the model is a total
function); over any interleaving of pushes and dispatcher ticks starting
from the empty queue, the dequeued sequence is an in-order subsequence of
the enqueued sequence, and immediately after any render_frame call the
pushed frame is the newest element of the queue. -/
theorem claim_C1_drop_oldest_queue {α : Type} (ops : List (QOp α)) (f : α)
    (a b : α) :
    List.Sublist (runOps (([] : List α), ([] : List α)) ops).2 (pushes ops) ∧
    (runOps (([] : List α), ([] : List α)) (ops ++ [QOp.push f])).1.getLast?
        = some f ∧
    render_frame [a, b] f = [b, f] := by
  refine ⟨?_, ?_, ?_⟩
  · have h := runOps_observed_sublist ops [] [] []
      (by simp)
    have h2 : List.Sublist (runOps (([] : List α), ([] : List α)) ops).2
        ((runOps (([] : List α), ([] : List α)) ops).2
          ++ (runOps (([] : List α), ([] : List α)) ops).1) :=
      List.sublist_append_left _ _
    exact h2.trans (by simpa using h)
  · rw [runOps_append]
    show (render_frame (runOps ([], []) ops).1 f, (runOps ([], []) ops).2).1.getLast? = some f
    simp only [render_frame]
    split <;> exact List.getLast?_concat _
  · simp [render_frame]

/-- Trace slots consumed by one frame: the wall pass's final trace_index
plus the entity pass's traces_used, exactly the used count that
_process_frame passes to hide_unused. -/
def frame_trace_used (debug : Bool) (f : Frame) (pool : List Trace) : Nat :=
  (render_walls debug f.walls pool).idx
    + (render_entities debug f.entities (render_walls debug f.walls pool).pool
        (render_walls debug f.walls pool).idx).used

/-- C2: after any _process_frame call, every trace-pool slot at index at
least the frame's used count (wall traces plus entity traces) has width 0,
and every via-pool slot at index at least the number of rendered
projectiles sits at the off-screen position — for arbitrary prior pool
contents. -/
theorem claim_C2_hide_invariant (debug : Bool) (hud_interval : Nat)
    (st : RendererState) (f : Frame) :
    (∀ i (h : i < (process_frame debug hud_interval st f).traces.length),
        frame_trace_used debug f st.traces ≤ i →
        (((process_frame debug hud_interval st f).traces).get ⟨i, h⟩).width = 0) ∧
    (∀ j (h : j < (process_frame debug hud_interval st f).vias.length),
        projUsed f.projectiles ≤ j →
        (((process_frame debug hud_interval st f).vias).get ⟨j, h⟩).x = OFF_SCREEN.1 ∧
        (((process_frame debug hud_interval st f).vias).get ⟨j, h⟩).y = OFF_SCREEN.2) := by
  constructor
  · intro i h hi
    exact tracePool_hide_unused_width _ _ i h hi
  · intro j h hj
    have hc := (render_projectiles_go_count f.projectiles st.vias 0).1
    have hu : (render_projectiles_go f.projectiles st.vias 0).2 ≤ j := by
      rw [hc]; omega
    exact viaPool_hide_unused_pos _ _ j h hu

/-- Concrete inputs for the C2 witness: a one-slot trace pool left with a
visible trace, a one-slot via pool left on-screen, and an empty frame. -/
def C2stW : RendererState :=
  { traces := [{ sx := 1, sy := 2, ex := 3, ey := 4, layer := Layer.FCu, width := 5 }],
    vias := [{ x := 7, y := 8 }],
    texts := [],
    frame_count := 0,
    last_hud_update := 0 }

/-- Empty frame used by the C2 witness. -/
def C2fW : Frame :=
  { walls := [], entities := [], projectiles := [],
    hud := { health := none, ammo := none, armor := none, keys := none } }

/-- Witness for C2 at a concrete renderer state and frame. -/
theorem claim_C2_hide_invariant_witness :
    (((process_frame false 5 C2stW C2fW).traces).get ⟨0, by decide⟩).width = 0 ∧
    (((process_frame false 5 C2stW C2fW).vias).get ⟨0, by decide⟩).x = OFF_SCREEN.1 := by
  exact ⟨(claim_C2_hide_invariant false 5 C2stW C2fW).1 0 (by decide) (by decide),
    ((claim_C2_hide_invariant false 5 C2stW C2fW).2 0 (by decide) (by decide)).1⟩

/-- C3: a wall entry with at least 8 fields and silhouette 0 contributes
zero trace-pool entries; a wall with at least 8 fields and non-zero
silhouette contributes exactly 4 when capacity permits; and a frame of W
such non-portal wireframe walls consumes exactly 4*W trace slots. -/
theorem claim_C3_portal_exclusion (debug : Bool)
    (x1 y1t y1b x2 y2t y2b d : ℚ) (rest : List ℚ) (ws : List (List ℚ))
    (st : RenderSt) (w : List ℚ) (pool : List Trace)
    (walls : List (List ℚ)) :
    render_walls_go debug
        ((x1 :: y1t :: y1b :: x2 :: y2t :: y2b :: d :: (0 : ℚ) :: rest) :: ws) st
      = render_walls_go debug ws st ∧
    (isSolidWireWall w = true → 4 ≤ pool.length →
      (render_walls debug [w] pool).idx = 4) ∧
    ((∀ v ∈ walls, isSolidWireWall v = true) →
      4 * walls.length ≤ pool.length →
      (render_walls debug walls pool).idx = 4 * walls.length) := by
  refine ⟨?_, ?_, ?_⟩
  · show render_walls_go debug ws
        (wallStep debug (x1 :: y1t :: y1b :: x2 :: y2t :: y2b :: d :: (0 : ℚ) :: rest) st)
      = render_walls_go debug ws st
    simp [wallStep]
  · intro hw hcap
    have hspec := (render_walls_go_spec debug [w]
      { pool := pool, idx := 0, used := 0, warnings := 0, raised := false }
      (by simp)).2.1
    rw [render_walls, hspec]
    simp [wallDemand, wallDemandOne, hw]
    omega
  · intro hall hcap
    have hspec := (render_walls_go_spec debug walls
      { pool := pool, idx := 0, used := 0, warnings := 0, raised := false }
      (by simp)).2.1
    rw [render_walls, hspec, wallDemand_all_solid walls hall]
    simp
    omega

/-- Witness for C3 at a concrete solid wall and a 4-slot pool. -/
theorem claim_C3_portal_exclusion_witness :
    (render_walls false [[0, 0, 0, 0, 0, 0, 0, 1]]
      (List.replicate 4
        { sx := 0, sy := 0, ex := 0, ey := 0, layer := Layer.FCu, width := 0 })).idx
      = 4 := by
  exact (claim_C3_portal_exclusion false 0 0 0 0 0 0 0 [] [] 
    { pool := [], idx := 0, used := 0, warnings := 0, raised := false }
    [0, 0, 0, 0, 0, 0, 0, 1]
    (List.replicate 4
      { sx := 0, sy := 0, ex := 0, ey := 0, layer := Layer.FCu, width := 0 })
    []).2.1 (by decide) (by decide)

theorem render_walls_spec (debug : Bool) (walls : List (List ℚ))
    (pool : List Trace) :
    (render_walls debug walls pool).pool.length = pool.length ∧
    (render_walls debug walls pool).idx = min (wallDemand walls) pool.length ∧
    (render_walls debug walls pool).used = (render_walls debug walls pool).idx ∧
    (render_walls debug walls pool).raised = false ∧
    (debug = true → pool.length < wallDemand walls →
      1 ≤ (render_walls debug walls pool).warnings) := by
  obtain ⟨w1, w2, w3, w4, w5, w6⟩ := render_walls_go_spec debug walls
    { pool := pool, idx := 0, used := 0, warnings := 0, raised := false } (by simp)
  refine ⟨by simpa [render_walls] using w1, by simpa [render_walls] using w2,
    by simpa [render_walls] using w3, by simpa [render_walls] using w4, ?_⟩
  intro hdbg hov
  have := w6 hdbg (by simpa using hov)
  simp only [render_walls]
  omega

theorem render_entities_spec (debug : Bool) (entities : List Entity)
    (pool : List Trace) (start : Nat) (h : start ≤ pool.length) :
    (render_entities debug entities pool start).pool.length = pool.length ∧
    (render_entities debug entities pool start).idx
        = min (start + entityDemand entities) pool.length ∧
    (render_entities debug entities pool start).used
        = (render_entities debug entities pool start).idx - start ∧
    (render_entities debug entities pool start).raised = false ∧
    (debug = true → pool.length < start + entityDemand entities →
      1 ≤ (render_entities debug entities pool start).warnings) := by
  obtain ⟨e1, e2, e3, e4, e5, e6⟩ := render_entities_go_spec debug entities
    { pool := pool, idx := start, used := 0, warnings := 0, raised := false }
    (by simpa using h)
  refine ⟨by simpa [render_entities] using e1, by simpa [render_entities] using e2,
    by simpa [render_entities] using e3, by simpa [render_entities] using e4, ?_⟩
  intro hdbg hov
  have := e6 hdbg (by simpa using hov)
  simp only [render_entities]
  omega

/-- C4: when a frame's walls and entities demand more edges than the trace
pool holds, the combined passes populate exactly pool-capacity many trace
slots, neither pass raises (the capacity check precedes every pool get),
and at least one pool-exhausted warning is printed when debug mode is on. -/
theorem claim_C4_capacity_truncation (debug : Bool) (pool : List Trace)
    (walls : List (List ℚ)) (entities : List Entity)
    (hover : pool.length < wallDemand walls + entityDemand entities) :
    (render_walls debug walls pool).idx
      + (render_entities debug entities (render_walls debug walls pool).pool
          (render_walls debug walls pool).idx).used = pool.length ∧
    (render_walls debug walls pool).raised = false ∧
    (render_entities debug entities (render_walls debug walls pool).pool
        (render_walls debug walls pool).idx).raised = false ∧
    (debug = true →
      1 ≤ (render_walls debug walls pool).warnings
        + (render_entities debug entities (render_walls debug walls pool).pool
            (render_walls debug walls pool).idx).warnings) := by
  obtain ⟨w1, w2, w3, w4, w5⟩ := render_walls_spec debug walls pool
  have hstart : (render_walls debug walls pool).idx
      ≤ (render_walls debug walls pool).pool.length := by
    rw [w1, w2]; omega
  obtain ⟨e1, e2, e3, e4, e5⟩ := render_entities_spec debug entities
    (render_walls debug walls pool).pool (render_walls debug walls pool).idx hstart
  rw [w1] at e2 e5
  refine ⟨?_, w4, e4, ?_⟩
  · rw [e3, e2, w2]
    omega
  · intro hdbg
    by_cases hov1 : pool.length < wallDemand walls
    · have := w5 hdbg hov1
      omega
    · have := e5 hdbg (by rw [w2]; omega)
      omega

/-- Witness for C4: an empty pool and one solid wall demanding 4 edges. -/
theorem claim_C4_capacity_truncation_witness :
    (render_walls true [[0, 0, 0, 0, 0, 0, 0, 1]] []).idx
      + (render_entities true []
          (render_walls true [[0, 0, 0, 0, 0, 0, 0, 1]] []).pool
          (render_walls true [[0, 0, 0, 0, 0, 0, 0, 1]] []).idx).used = 0 ∧
    1 ≤ (render_walls true [[0, 0, 0, 0, 0, 0, 0, 1]] []).warnings
      + (render_entities true []
          (render_walls true [[0, 0, 0, 0, 0, 0, 0, 1]] []).pool
          (render_walls true [[0, 0, 0, 0, 0, 0, 0, 1]] []).idx).warnings := by
  have h := claim_C4_capacity_truncation true [] [[0, 0, 0, 0, 0, 0, 0, 1]] []
    (by decide)
  exact ⟨h.1, h.2.2.2 rfl⟩

/- ===================== doom_bridge.py: wire protocol ===================== -/

/-- C6: TracePool.get raises (returns none) precisely when the index
reaches max_size and otherwise returns the slot at the index, while
ViaPool.get and TextPool.get never raise for any index: they return the
slot at index mod max_size (silent wraparound, the identity below
max_size). The length hypotheses record that the pools are constructed
with exactly max_size pre-allocated slots. -/
theorem claim_C6_get_exhaustion_policy
    (traces : List Trace) (vias : List Via) (texts : List TextSlot)
    (tmax vmax xmax i : Nat)
    (htr : traces.length = tmax) (hv : vias.length = vmax)
    (hx : texts.length = xmax) (hv0 : 0 < vmax) (hx0 : 0 < xmax) :
    (tracePool_get traces tmax i = none ↔ tmax ≤ i) ∧
    (i < tmax → tracePool_get traces tmax i = traces[i]?) ∧
    (viaPool_get vias vmax i = vias[i % vmax]?
      ∧ (viaPool_get vias vmax i).isSome = true) ∧
    (textPool_get texts xmax i = texts[i % xmax]?
      ∧ (textPool_get texts xmax i).isSome = true) := by
  refine ⟨⟨?_, ?_⟩, ?_, ⟨?_, ?_⟩, ⟨?_, ?_⟩⟩
  · intro hnone
    by_contra hlt
    have hi : i < traces.length := by omega
    rw [tracePool_get, if_neg (by omega), List.getElem?_eq_getElem hi] at hnone
    exact Option.noConfusion hnone
  · intro hge
    rw [tracePool_get, if_pos hge]
  · intro hlt
    rw [tracePool_get, if_neg (by omega)]
  · by_cases hge : vmax ≤ i
    · rw [viaPool_get, if_pos hge]
    · rw [viaPool_get, if_neg hge, Nat.mod_eq_of_lt (by omega)]
  · have hmod : i % vmax < vias.length := by
      rw [hv]; exact Nat.mod_lt i hv0
    by_cases hge : vmax ≤ i
    · rw [viaPool_get, if_pos hge, List.getElem?_eq_getElem hmod]
      rfl
    · rw [viaPool_get, if_neg hge,
        List.getElem?_eq_getElem (show i < vias.length by omega)]
      rfl
  · by_cases hge : xmax ≤ i
    · rw [textPool_get, if_pos hge]
    · rw [textPool_get, if_neg hge, Nat.mod_eq_of_lt (by omega)]
  · have hmod : i % xmax < texts.length := by
      rw [hx]; exact Nat.mod_lt i hx0
    by_cases hge : xmax ≤ i
    · rw [textPool_get, if_pos hge, List.getElem?_eq_getElem hmod]
      rfl
    · rw [textPool_get, if_neg hge,
        List.getElem?_eq_getElem (show i < texts.length by omega)]
      rfl

/-- Blank trace slot used by concrete witnesses. -/
def zeroTrace : Trace :=
  { sx := 0, sy := 0, ex := 0, ey := 0, layer := Layer.FCu, width := 0 }

/-- Witness for C6 at concrete two-slot pools and index 5. -/
theorem claim_C6_get_exhaustion_policy_witness :
    tracePool_get (List.replicate 2 zeroTrace) 2 5 = none ∧
    (viaPool_get [{ x := 1, y := 1 }, { x := 2, y := 2 }] 2 5).isSome = true := by
  have h := claim_C6_get_exhaustion_policy
    (List.replicate 2 zeroTrace)
    [{ x := 1, y := 1 }, { x := 2, y := 2 }]
    [{ content := "", x := 0, y := 0 }] 2 2 1 5
    (by decide) (by decide) (by decide) (by decide) (by decide)
  exact ⟨h.1.mpr (by decide), h.2.2.1.2⟩

/- ============== doom_bridge.py: receive loop dispatch (C7) ============== -/

/-- Wire-level outcome of one _receive_loop iteration after the blocking
reads: a socket timeout (retry), a closed connection (break), or a fully
framed message of some type whose payload either parsed as JSON or raised
json.JSONDecodeError. -/
inductive LoopEvent : Type
  | timeout
  | closed
  | msg (msg_type : Nat) (json_ok : Bool)

/-- DoomBridge state the receive loop touches: the running flag, whether
the accepted connection is still open, and the statistics counters. -/
structure BridgeState where
  running : Bool
  connected : Bool
  frames_received : Nat
  receive_errors : Nat
deriving DecidableEq, Repr

/-- Result of one loop iteration: the updated state, whether the loop
continues to the next iteration (false models break), and whether the
iteration printed anything about the message. -/
structure StepResult where
  state : BridgeState
  continues : Bool
  logged : Bool
deriving DecidableEq, Repr

/-- One iteration of DoomBridge._receive_loop after a complete read:
invalid JSON prints an error, increments receive_errors and continues;
FRAME_DATA hands the frame to the renderer (which swallows its own
exceptions) and increments frames_received; SHUTDOWN clears running and
breaks; any other type prints a warning only in debug mode and just
continues. The connection is only closed by stop(), after the loop. -/
def receive_step (debug : Bool) (st : BridgeState) (e : LoopEvent) :
    StepResult :=
  match e with
  | LoopEvent.timeout => { state := st, continues := true, logged := false }
  | LoopEvent.closed => { state := st, continues := false, logged := debug }
  | LoopEvent.msg msg_type json_ok =>
    if json_ok = false then
      { state := { st with receive_errors := st.receive_errors + 1 },
        continues := true, logged := true }
    else if msg_type = MSG_FRAME_DATA then
      { state := { st with frames_received := st.frames_received + 1 },
        continues := true, logged := false }
    else if msg_type = MSG_SHUTDOWN then
      { state := { st with running := false }, continues := false, logged := true }
    else
      { state := st, continues := true, logged := debug }

/-- Bridge state right after start() for the C7 counterexample. -/
def C7st0 : BridgeState :=
  { running := true, connected := true, frames_received := 0, receive_errors := 0 }

/-- Counterexample to C7: an unknown-type message (0x07, valid JSON) does
not increment the receive-error counter — and with debug mode off it is
not even logged — refuting the claim that unknown message types are
counted like decode errors. -/
theorem claim_C7_counterexample :
    (receive_step false C7st0 (LoopEvent.msg 7 true)).state.receive_errors
        = C7st0.receive_errors ∧
    ¬ ((receive_step false C7st0 (LoopEvent.msg 7 true)).state.receive_errors
        = C7st0.receive_errors + 1) ∧
    (receive_step false C7st0 (LoopEvent.msg 7 true)).logged = false := by
  decide

/-- C7 amended: a message whose payload is not valid JSON — of ANY
message type, since json.loads runs before the type dispatch, so a
malformed FRAME_DATA payload is counted identically — is logged, counted
in receive_errors, and the loop continues with the session intact; a
message with an unknown type (neither FRAME_DATA nor SHUTDOWN) is logged
only in debug mode, is NOT counted, and the loop likewise continues with
running still true and the connection still open. -/
theorem claim_C7_recoverable_per_message (debug : Bool) (st : BridgeState)
    (t : Nat) (hrun : st.running = true) :
    ((receive_step debug st (LoopEvent.msg t false)).state.receive_errors
        = st.receive_errors + 1 ∧
      (receive_step debug st (LoopEvent.msg t false)).logged = true ∧
      (receive_step debug st (LoopEvent.msg t false)).continues = true ∧
      (receive_step debug st (LoopEvent.msg t false)).state.running = true ∧
      (receive_step debug st (LoopEvent.msg t false)).state.connected
        = st.connected) ∧
    (t ≠ MSG_FRAME_DATA → t ≠ MSG_SHUTDOWN →
      (receive_step debug st (LoopEvent.msg t true)).state.receive_errors
          = st.receive_errors ∧
      (receive_step debug st (LoopEvent.msg t true)).logged = debug ∧
      (receive_step debug st (LoopEvent.msg t true)).continues = true ∧
      (receive_step debug st (LoopEvent.msg t true)).state.running = true ∧
      (receive_step debug st (LoopEvent.msg t true)).state.connected
        = st.connected) := by
  constructor
  · refine ⟨?_, ?_, ?_, ?_, ?_⟩ <;> simp [receive_step, hrun]
  · intro ht1 ht4
    refine ⟨?_, ?_, ?_, ?_, ?_⟩ <;> simp [receive_step, ht1, ht4, hrun]

/-- Witness for the amended C7: a malformed FRAME_DATA payload (type 0x01,
json_ok false) is counted, and an unknown type 9 keeps the session alive
without touching the counter. -/
theorem claim_C7_recoverable_per_message_witness :
    (receive_step true C7st0 (LoopEvent.msg MSG_FRAME_DATA false)).state.receive_errors
        = C7st0.receive_errors + 1 ∧
    (receive_step true C7st0 (LoopEvent.msg 9 true)).state.receive_errors
        = C7st0.receive_errors ∧
    (receive_step true C7st0 (LoopEvent.msg 9 true)).state.running = true := by
  have h1 := claim_C7_recoverable_per_message true C7st0 MSG_FRAME_DATA (by decide)
  have h9 := (claim_C7_recoverable_per_message true C7st0 9 (by decide)).2
    (by decide) (by decide)
  exact ⟨h1.1.1, h9.1, h9.2.2.2.1⟩

/- ================= pcb_renderer.py: HUD throttle (C8) ================= -/

/-- Renderer state immediately after construction (frame_count = 0,
last_hud_update = 0) with one text slot left showing stale text, used by
the C8 counterexample. -/
def C8st0 : RendererState :=
  { traces := [], vias := [], texts := [{ content := "X", x := 0, y := 0 }],
    frame_count := 0, last_hud_update := 0 }

/-- Frame with HUD data used by the C8 counterexample. -/
def C8f0 : Frame :=
  { walls := [], entities := [], projectiles := [],
    hud := { health := some 50, ammo := some 20, armor := some 10, keys := none } }

/-- Counterexample to C8: with the throttle interval set to 1, the very
first frame processed after construction does NOT render the HUD —
frame_count - last_hud_update = 0 < 1, so the throttle test fails, the
text pool is left untouched, and the state it would have had after a HUD
render differs. -/
theorem claim_C8_counterexample :
    hud_due 1 C8st0.frame_count C8st0.last_hud_update = false ∧
    (process_frame false 1 C8st0 C8f0).texts = C8st0.texts ∧
    render_hud C8f0.hud C8st0.texts ≠ C8st0.texts := by
  refine ⟨by decide, by decide, ?_⟩
  intro h
  have hx : (render_hud C8f0.hud C8st0.texts).map TextSlot.content
      = C8st0.texts.map TextSlot.content := by rw [h]
  revert hx
  decide

/-- C8 amended: the HUD is re-rendered exactly on the processed frames
where frame_count - last_hud_update has reached the throttle interval
(default 5) and skipped on all others, leaving the text pool untouched;
with the interval set to 1 the very first frame after construction is
still skipped, and every subsequent processed frame renders the HUD (the
state after the first call satisfies frame_count = last_hud_update + 1,
an invariant each further call preserves while rendering). -/
theorem claim_C8_hud_throttle (debug : Bool) (hud_interval : Nat)
    (st : RendererState) (f : Frame) :
    (hud_due hud_interval st.frame_count st.last_hud_update = false →
      (process_frame debug hud_interval st f).texts = st.texts) ∧
    (hud_due hud_interval st.frame_count st.last_hud_update = true →
      (process_frame debug hud_interval st f).texts = render_hud f.hud st.texts) ∧
    (st.frame_count = 0 → st.last_hud_update = 0 →
      hud_due 1 st.frame_count st.last_hud_update = false ∧
      (process_frame debug 1 st f).frame_count
        = (process_frame debug 1 st f).last_hud_update + 1) ∧
    (st.frame_count = st.last_hud_update + 1 →
      hud_due 1 st.frame_count st.last_hud_update = true ∧
      (process_frame debug 1 st f).texts = render_hud f.hud st.texts ∧
      (process_frame debug 1 st f).frame_count
        = (process_frame debug 1 st f).last_hud_update + 1) := by
  refine ⟨?_, ?_, ?_, ?_⟩
  · intro hdue
    simp [process_frame, hdue]
  · intro hdue
    simp [process_frame, hdue]
  · intro h0 hl0
    have hdue : hud_due 1 st.frame_count st.last_hud_update = false := by
      simp [hud_due, h0, hl0]
    exact ⟨hdue, by simp [process_frame, hdue, h0, hl0]⟩
  · intro hinv
    have hdue : hud_due 1 st.frame_count st.last_hud_update = true := by
      simp [hud_due, hinv]
    refine ⟨hdue, by simp [process_frame, hdue], ?_⟩
    simp [process_frame, hdue]

/-- Witness for the amended C8 at a concrete post-first-frame state. -/
theorem claim_C8_hud_throttle_witness :
    hud_due 1 (1 : Nat) (0 : Nat) = true ∧
    (process_frame false 1
        { traces := [], vias := [], texts := [{ content := "X", x := 0, y := 0 }],
          frame_count := 1, last_hud_update := 0 } C8f0).texts
      = render_hud C8f0.hud [{ content := "X", x := 0, y := 0 }] := by
  have h := (claim_C8_hud_throttle false 1
    { traces := [], vias := [], texts := [{ content := "X", x := 0, y := 0 }],
      frame_count := 1, last_hud_update := 0 } C8f0).2.2.2 rfl
  exact ⟨h.1, h.2.1⟩

/- ============ entity_types.py / FootprintPool (C9, C10) ============ -/

/-- Footprint category constant (entity_types.CATEGORY_COLLECTIBLE). -/
def CATEGORY_COLLECTIBLE : Int := 0

/-- Footprint category constant (entity_types.CATEGORY_DECORATION). -/
def CATEGORY_DECORATION : Int := 1

/-- Footprint category constant (entity_types.CATEGORY_ENEMY). -/
def CATEGORY_ENEMY : Int := 2

/-- Footprint category constant (entity_types.CATEGORY_UNKNOWN). -/
def CATEGORY_UNKNOWN : Int := 3

/-- Python dict lookup dict.get(k): first pair with the key, if any. -/
def dict_lookup {α : Type} (d : List (Int × α)) (k : Int) : Option α :=
  (d.find? (fun kv => kv.1 == k)).map (fun kv => kv.2)

/-- Sub-pool FootprintPool.get selects: the requested category if it is a
key of self.footprints, otherwise the CATEGORY_UNKNOWN fallback; the
.get(category, []) default makes a missing key behave as the empty pool. -/
def footprintPool_selected {α : Type} (d : List (Int × List α))
    (category : Int) : List α :=
  let cat := if (dict_lookup d category).isSome then category
    else CATEGORY_UNKNOWN
  (dict_lookup d cat).getD []

/-- FootprintPool.get(index, category): validate the category (fall back
to CATEGORY_UNKNOWN), return None (modelled none) when the selected
sub-pool is empty, otherwise wrap the index modulo the sub-pool size. -/
def footprintPool_get {α : Type} (d : List (Int × List α)) (index : Nat)
    (category : Int) : Option α :=
  let pool := footprintPool_selected d category
  if pool.isEmpty then none
  else pool[index % pool.length]?

/-- Dict self.footprints as built by FootprintPool.__init__ when
get_footprint_library_path raises: every category maps to an empty list. -/
def emptyFootprintPools (α : Type) : List (Int × List α) :=
  [(CATEGORY_COLLECTIBLE, []), (CATEGORY_DECORATION, []),
   (CATEGORY_ENEMY, []), (CATEGORY_UNKNOWN, [])]

/-- Map from DOOM mobj type values (entity_types MT_* constants) to
footprint categories, entity_types.ENTITY_CATEGORIES: the player and
enemies map to CATEGORY_ENEMY (2), items / powerups / keys / ammo /
weapons to CATEGORY_COLLECTIBLE (0), barrels and decorations to
CATEGORY_DECORATION (1); projectiles and a few effect types are absent. -/
def ENTITY_CATEGORIES : List (Int × Int) :=
  [(0, 2), (1, 2), (2, 2), (3, 2), (5, 2), (8, 2), (10, 2), (11, 2),
   (12, 2), (13, 2), (14, 2), (15, 2), (17, 2), (18, 2), (19, 2), (20, 2),
   (21, 2), (22, 2), (33, 0), (34, 0), (35, 0), (36, 0), (37, 0), (38, 0),
   (39, 0), (40, 0), (41, 0), (42, 0), (43, 0), (44, 0), (45, 0), (46, 0),
   (47, 0), (48, 0), (49, 0), (50, 0), (51, 0), (52, 0), (53, 0), (54, 0),
   (55, 0), (56, 0), (57, 0), (58, 0), (59, 0), (60, 0), (61, 0), (62, 0),
   (63, 0), (64, 0), (65, 0), (66, 0), (67, 0), (68, 1), (71, 1), (72, 1),
   (73, 1), (74, 1), (75, 1), (76, 1), (77, 1), (78, 1), (79, 1), (80, 1),
   (81, 1), (82, 1), (83, 1), (84, 1), (85, 1), (86, 1), (87, 1), (88, 1),
   (89, 1), (90, 1), (91, 1), (92, 1), (93, 1), (94, 1), (95, 1), (96, 1),
   (97, 1), (98, 1), (99, 1), (100, 1), (101, 1), (102, 1), (103, 1), (104, 1),
   (105, 1), (106, 1), (107, 1), (108, 1), (109, 1), (110, 1), (111, 1), (112, 1),
   (113, 1), (114, 1), (115, 1), (116, 1), (117, 1), (118, 1), (119, 1), (120, 1),
   (121, 1), (122, 1), (123, 1), (124, 1), (125, 1), (126, 1), (127, 1), (128, 1)]

/-- entity_types.get_footprint_category: ENTITY_CATEGORIES.get(mobj_type,
CATEGORY_UNKNOWN). -/
def get_footprint_category (mobj_type : Int) : Int :=
  (dict_lookup ENTITY_CATEGORIES mobj_type).getD CATEGORY_UNKNOWN

theorem emptyFootprintPools_selected {α : Type} (c : Int) :
    footprintPool_selected (emptyFootprintPools α) c = [] := by
  unfold footprintPool_selected
  by_cases h : (dict_lookup (emptyFootprintPools α) c).isSome
  · obtain ⟨v, hv⟩ := Option.isSome_iff_exists.mp h
    obtain ⟨kv, hfind, hsnd⟩ : ∃ kv,
        (emptyFootprintPools α).find? (fun x => x.1 == c) = some kv ∧ kv.2 = v := by
      simpa [dict_lookup] using hv
    have hmem : kv ∈ emptyFootprintPools α := List.mem_of_find?_eq_some hfind
    have hvnil : v = [] := by
      simp [emptyFootprintPools] at hmem
      rcases hmem with h1 | h1 | h1 | h1 <;> simp [← hsnd, h1]
    simp [h, hv, hvnil]
  · rw [if_neg h]
    simp [dict_lookup, emptyFootprintPools, CATEGORY_UNKNOWN,
      CATEGORY_COLLECTIBLE, CATEGORY_DECORATION, CATEGORY_ENEMY, List.find?]

/-- C9: FootprintPool.get never raises a key error: a category that is
not a key of the pool mapping selects the CATEGORY_UNKNOWN fallback
sub-pool, and for any category whose selected sub-pool is non-empty the
index wraps modulo that sub-pool's size and a footprint is returned;
likewise get_footprint_category maps every mobj type outside the
ENTITY_CATEGORIES table to CATEGORY_UNKNOWN. -/
theorem claim_C9_category_fallback {α : Type} (d : List (Int × List α))
    (index : Nat) (category c2 m : Int)
    (hcat : dict_lookup d category = none)
    (hm : dict_lookup ENTITY_CATEGORIES m = none) :
    footprintPool_get d index category
        = footprintPool_get d index CATEGORY_UNKNOWN ∧
    (footprintPool_selected d c2 ≠ [] →
      footprintPool_get d index c2
          = (footprintPool_selected d c2)[index % (footprintPool_selected d c2).length]?
        ∧ (footprintPool_get d index c2).isSome = true) ∧
    get_footprint_category m = CATEGORY_UNKNOWN := by
  refine ⟨?_, ?_, ?_⟩
  · have hsel : footprintPool_selected d category
        = footprintPool_selected d CATEGORY_UNKNOWN := by
      unfold footprintPool_selected
      rw [hcat]
      by_cases h3 : (dict_lookup d CATEGORY_UNKNOWN).isSome <;> simp [h3]
    unfold footprintPool_get
    rw [hsel]
  · intro hne
    have hemp : (footprintPool_selected d c2).isEmpty = false := by
      simpa [List.isEmpty_iff] using hne
    have hlen : 0 < (footprintPool_selected d c2).length :=
      List.length_pos.mpr hne
    have hmod : index % (footprintPool_selected d c2).length
        < (footprintPool_selected d c2).length := Nat.mod_lt index hlen
    constructor
    · simp [footprintPool_get, hemp]
    · simp [footprintPool_get, hemp, List.getElem?_eq_getElem hmod]
  · unfold get_footprint_category
    rw [hm]
    rfl

/-- Witness for C9: a pool dict without category 42 and mobj type 999. -/
theorem claim_C9_category_fallback_witness :
    footprintPool_get [((0 : Int), [11]), ((3 : Int), [7, 8])] 5 42
        = footprintPool_get [((0 : Int), [11]), ((3 : Int), [7, 8])] 5 CATEGORY_UNKNOWN ∧
    get_footprint_category 999 = CATEGORY_UNKNOWN := by
  have h := claim_C9_category_fallback [((0 : Int), [11]), ((3 : Int), [7, 8])]
    5 42 0 999 (by decide) (by decide)
  exact ⟨h.1, h.2.2⟩

/-- C10: FootprintPool.get returns None (not an exception) whenever the
selected category's sub-pool is empty, and in particular returns None for
every index and category when the footprint library could not be located
at construction and all sub-pools were created empty. -/
theorem claim_C10_empty_subpool_none {α : Type} (d : List (Int × List α))
    (index : Nat) (category : Int)
    (hsel : footprintPool_selected d category = []) :
    footprintPool_get d index category = none ∧
    (∀ (j : Nat) (c : Int), footprintPool_get (emptyFootprintPools α) j c = none) := by
  constructor
  · unfold footprintPool_get
    rw [hsel]
    rfl
  · intro j c
    unfold footprintPool_get
    rw [emptyFootprintPools_selected]
    rfl

/-- Witness for C10: the all-empty pool dict at index 4, category 2. -/
theorem claim_C10_empty_subpool_none_witness :
    footprintPool_get (emptyFootprintPools Nat) 4 2 = none := by
  exact (claim_C10_empty_subpool_none (emptyFootprintPools Nat) 4 2
    (by decide)).1
